import Mathlib

/-!
Verification of the Adaptive Telemetry & Control-Loop Engine of the
NeuroFlex dashboard (src/App.tsx, src/types.ts, src/services/geminiService.ts).

Numbers: JavaScript numerics are modelled by `ℚ` (all constants of the engine
are decimal fractions that are exact in `ℚ`; node counts are integers in
[10, 100], modelled by `ℕ`).  For an integer `n` with `0 ≤ n ≤ 100`,
`Math.floor(n * 0.2) = n / 5` (natural division): the double rounding error of
`n * 0.2` is far below the distance to the next integer, so the floor is exact.
-/

namespace NeuroFlex

/-- Constants from src/App.tsx. -/
def HISTORY_LENGTH : Nat := 30

def MIN_NODES : Nat := 10

def MAX_NODES : Nat := 100

/-- `complexity` field of `NetworkConfig` (src/types.ts). -/
inductive Complexity
  | LOW | MEDIUM | HIGH | CRITICAL
deriving DecidableEq, Repr

/-- `status` field of `NetworkConfig` (src/types.ts). -/
inductive Status
  | OPTIMAL | STRAINED | OVERLOAD | IDLE
deriving DecidableEq, Repr

/-- `NetworkConfig` (src/types.ts). -/
structure NetworkConfig where
  nodeCount : Nat
  complexity : Complexity
  status : Status
deriving DecidableEq, Repr

/-- `type` field of `LogEntry` (src/types.ts). -/
inductive LogType
  | INFO | WARNING | ERROR | SYSTEM | AI
deriving DecidableEq, Repr

/-- `LogEntry` (src/types.ts). -/
structure LogEntry where
  id : String
  timestamp : String
  type : LogType
  message : String
deriving DecidableEq, Repr

/-- `SystemMetrics` (src/types.ts). -/
structure SystemMetrics where
  cpuLoad : ℚ
  memoryUsage : ℚ
  networkLatency : ℚ
  temperature : ℚ
deriving DecidableEq, Repr

/-- One history sample (src/App.tsx, `history` state). -/
structure HistorySample where
  time : Nat
  cpu : ℚ
  mem : ℚ
deriving DecidableEq, Repr

/-- Initial `networkConfig` state (src/App.tsx lines 24-28). -/
def networkConfigInit : NetworkConfig :=
  { nodeCount := 30, complexity := .MEDIUM, status := .OPTIMAL }

/-- Initial `metrics` state (src/App.tsx lines 17-22). -/
def metricsInit : SystemMetrics :=
  { cpuLoad := 20, memoryUsage := 30, networkLatency := 45, temperature := 40 }

/-- The list update performed by `addLog` (src/App.tsx lines 40-50):
`[...prev.slice(-49), entry]`, i.e. keep the last 49 entries and append the
new one (capacity 50).  The random `id` and the wall-clock `timestamp` of the
new entry are taken as inputs. -/
def addLogPure (prev : List LogEntry) (e : LogEntry) : List LogEntry :=
  prev.drop (prev.length - 49) ++ [e]

/-- The list update performed by the history write in the metrics tick
(src/App.tsx lines 75-79): `[...h.slice(-(HISTORY_LENGTH - 1)), sample]`. -/
def pushHistory (h : List HistorySample) (s : HistorySample) : List HistorySample :=
  h.drop (h.length - (HISTORY_LENGTH - 1)) ++ [s]

/-- The metrics simulator step (src/App.tsx lines 55-81).  The three calls to
`Math.random()` are modelled by the noise inputs: `noise = (r-0.5)*10`,
`memNoise = (r-0.5)*5`, `latNoise = r*20` for `r ∈ [0,1)`. -/
def metricsStep (prev : SystemMetrics) (nodeCount : Nat) (artificialLoad : ℚ)
    (noise memNoise latNoise : ℚ) : SystemMetrics :=
  let baseLoad : ℚ := 10 + (nodeCount : ℚ) / 2
  let newCpu := min 100 (max 5 (baseLoad + artificialLoad + noise))
  let newMem := min 100 (max 10 (prev.memoryUsage + (newCpu - prev.memoryUsage) * 0.1 + memNoise))
  { cpuLoad := newCpu
    memoryUsage := newMem
    networkLatency := 40 + newCpu * 0.5 + latNoise
    temperature := 40 + newCpu * 0.4 }

/-- The auto-scaling decision (src/App.tsx lines 96-132) as a pure function:
given the current cpu load and config, it returns the new config together with
the `SYSTEM` log message, or `none` when the effect body changes nothing and
logs nothing.  `Math.floor(currentNodes * 0.2)` is `nodeCount / 5` (see the
file header). -/
def evaluate (cpu : ℚ) (cfg : NetworkConfig) : Option (NetworkConfig × String) :=
  if cpu > 85 then
    let reduction := cfg.nodeCount / 5
    let target := max MIN_NODES (cfg.nodeCount - reduction)
    if target ≠ cfg.nodeCount then
      some ({ nodeCount := target
              complexity := if target < 30 then .LOW else .MEDIUM
              status := .STRAINED },
            "Critical load detected. Reducing active nodes to " ++ toString target ++ ".")
    else none
  else if cpu < 40 then
    let increase := 5
    let target := min MAX_NODES (cfg.nodeCount + increase)
    if target ≠ cfg.nodeCount then
      some ({ nodeCount := target
              complexity := if target > 60 then .HIGH else .MEDIUM
              status := .OPTIMAL },
            "Available headroom. Expanding neural architecture to " ++ toString target ++ " nodes.")
    else none
  else none

/-- One firing of the auto-scaling interval callback (src/App.tsx lines 92-133)
on the config and log state: applies `evaluate` and, on a change, appends the
one `SYSTEM` log entry via `addLogPure` (`id`/`ts` stand for the random id and
wall-clock timestamp `addLog` generates). -/
def scaleStep (cpu : ℚ) (cfg : NetworkConfig) (logs : List LogEntry)
    (id ts : String) : NetworkConfig × List LogEntry :=
  match evaluate cpu cfg with
  | some (next, reason) => (next, addLogPure logs ⟨id, ts, .SYSTEM, reason⟩)
  | none => (cfg, logs)

/-- The config update of one auto-scaling firing, ignoring the log. -/
def applyScale (cfg : NetworkConfig) (cpu : ℚ) : NetworkConfig :=
  match evaluate cpu cfg with
  | some (next, _) => next
  | none => cfg

/-- C1: for `40 ≤ cpu ≤ 85` the auto-scaling evaluation is a no-op for every
config: it returns `null`, leaves the config unchanged and appends no log
entry. -/
theorem deadZone_noop (cpu : ℚ) (cfg : NetworkConfig) (logs : List LogEntry)
    (id ts : String) (h40 : 40 ≤ cpu) (h85 : cpu ≤ 85) :
    evaluate cpu cfg = none ∧ scaleStep cpu cfg logs id ts = (cfg, logs) := by
  have h1 : ¬ cpu > 85 := not_lt.mpr h85
  have h2 : ¬ cpu < 40 := not_lt.mpr h40
  have he : evaluate cpu cfg = none := by
    unfold evaluate
    rw [if_neg h1, if_neg h2]
  exact ⟨he, by unfold scaleStep; rw [he]⟩

/-- Witness for C1 at `cpu = 60` and the initial config. -/
theorem deadZone_noop_witness :
    evaluate 60 networkConfigInit = none ∧
      scaleStep 60 networkConfigInit [] "a" "00:00:00" = (networkConfigInit, []) :=
  deadZone_noop 60 networkConfigInit [] "a" "00:00:00" (by norm_num) (by norm_num)

/-- C2: for `cpu > 85` the evaluation computes
`target = max MIN_NODES (n - floor(n * 0.2))`; if `target = n` it is a no-op,
otherwise it returns the config with `nodeCount = target`, `status = STRAINED`,
`complexity = LOW` iff `target < 30` (else `MEDIUM`), and appends exactly one
`SYSTEM` log entry with the critical-load message. -/
theorem scaleDown_spec (cpu : ℚ) (cfg : NetworkConfig) (logs : List LogEntry)
    (id ts : String) (target : Nat) (hcpu : 85 < cpu)
    (hmin : MIN_NODES ≤ cfg.nodeCount) (hmax : cfg.nodeCount ≤ MAX_NODES)
    (htarget : target = max MIN_NODES (cfg.nodeCount - cfg.nodeCount / 5)) :
    (target = cfg.nodeCount →
      evaluate cpu cfg = none ∧ scaleStep cpu cfg logs id ts = (cfg, logs)) ∧
    (target ≠ cfg.nodeCount →
      evaluate cpu cfg =
        some ({ nodeCount := target
                complexity := if target < 30 then .LOW else .MEDIUM
                status := .STRAINED },
              "Critical load detected. Reducing active nodes to " ++ toString target ++ ".") ∧
      scaleStep cpu cfg logs id ts =
        ({ nodeCount := target
           complexity := if target < 30 then .LOW else .MEDIUM
           status := .STRAINED },
         addLogPure logs ⟨id, ts, .SYSTEM,
           "Critical load detected. Reducing active nodes to " ++ toString target ++ "."⟩)) := by
  subst htarget
  constructor
  · intro heq
    have he : evaluate cpu cfg = none := by
      unfold evaluate
      rw [if_pos hcpu, if_neg (not_not_intro heq)]
    exact ⟨he, by unfold scaleStep; rw [he]⟩
  · intro hne
    have he : evaluate cpu cfg =
        some ({ nodeCount := max MIN_NODES (cfg.nodeCount - cfg.nodeCount / 5)
                complexity :=
                  if max MIN_NODES (cfg.nodeCount - cfg.nodeCount / 5) < 30 then .LOW else .MEDIUM
                status := .STRAINED },
              "Critical load detected. Reducing active nodes to " ++
                toString (max MIN_NODES (cfg.nodeCount - cfg.nodeCount / 5)) ++ ".") := by
      unfold evaluate
      rw [if_pos hcpu, if_pos hne]
    exact ⟨he, by unfold scaleStep; rw [he]⟩

/-- Witness for C2: the two scenarios from the spec.  `cpu = 90`, `n = 50`
gives target `40`, `STRAINED`, `MEDIUM`; `cpu = 90`, `n = 12` gives the clamped
target `10` (a real change). -/
theorem scaleDown_spec_witness :
    (evaluate 90 { nodeCount := 50, complexity := .MEDIUM, status := .OPTIMAL } =
      some ({ nodeCount := 40, complexity := .MEDIUM, status := .STRAINED },
            "Critical load detected. Reducing active nodes to 40.")) ∧
    (evaluate 90 { nodeCount := 12, complexity := .LOW, status := .OPTIMAL } =
      some ({ nodeCount := 10, complexity := .LOW, status := .STRAINED },
            "Critical load detected. Reducing active nodes to 10.")) := by
  have h50 := (scaleDown_spec 90 { nodeCount := 50, complexity := .MEDIUM, status := .OPTIMAL }
    [] "a" "00:00:00" 40 (by norm_num) (by decide) (by decide) (by decide)).2 (by decide)
  have h12 := (scaleDown_spec 90 { nodeCount := 12, complexity := .LOW, status := .OPTIMAL }
    [] "a" "00:00:00" 10 (by norm_num) (by decide) (by decide) (by decide)).2 (by decide)
  exact ⟨h50.1, h12.1⟩

/-- C3: for `cpu < 40` the evaluation computes `target = min MAX_NODES (n + 5)`;
if `target = n` it is a no-op, otherwise it returns the config with
`nodeCount = target`, `status = OPTIMAL`, `complexity = HIGH` iff `target > 60`
(else `MEDIUM`), and appends exactly one `SYSTEM` log entry with the
headroom message. -/
theorem scaleUp_spec (cpu : ℚ) (cfg : NetworkConfig) (logs : List LogEntry)
    (id ts : String) (target : Nat) (hcpu : cpu < 40)
    (hmin : MIN_NODES ≤ cfg.nodeCount) (hmax : cfg.nodeCount ≤ MAX_NODES)
    (htarget : target = min MAX_NODES (cfg.nodeCount + 5)) :
    (target = cfg.nodeCount →
      evaluate cpu cfg = none ∧ scaleStep cpu cfg logs id ts = (cfg, logs)) ∧
    (target ≠ cfg.nodeCount →
      evaluate cpu cfg =
        some ({ nodeCount := target
                complexity := if target > 60 then .HIGH else .MEDIUM
                status := .OPTIMAL },
              "Available headroom. Expanding neural architecture to " ++ toString target ++ " nodes.") ∧
      scaleStep cpu cfg logs id ts =
        ({ nodeCount := target
           complexity := if target > 60 then .HIGH else .MEDIUM
           status := .OPTIMAL },
         addLogPure logs ⟨id, ts, .SYSTEM,
           "Available headroom. Expanding neural architecture to " ++ toString target ++ " nodes."⟩)) := by
  subst htarget
  have hnot : ¬ cpu > 85 := by linarith
  constructor
  · intro heq
    have he : evaluate cpu cfg = none := by
      unfold evaluate
      rw [if_neg hnot, if_pos hcpu, if_neg (not_not_intro heq)]
    exact ⟨he, by unfold scaleStep; rw [he]⟩
  · intro hne
    have he : evaluate cpu cfg =
        some ({ nodeCount := min MAX_NODES (cfg.nodeCount + 5)
                complexity :=
                  if min MAX_NODES (cfg.nodeCount + 5) > 60 then .HIGH else .MEDIUM
                status := .OPTIMAL },
              "Available headroom. Expanding neural architecture to " ++
                toString (min MAX_NODES (cfg.nodeCount + 5)) ++ " nodes.") := by
      unfold evaluate
      rw [if_neg hnot, if_pos hcpu, if_pos hne]
    exact ⟨he, by unfold scaleStep; rw [he]⟩

/-- Witness for C3 at `cpu = 20`, `n = 30`: target `35`, `MEDIUM`, `OPTIMAL`,
with the one `SYSTEM` log appended. -/
theorem scaleUp_spec_witness :
    evaluate 20 networkConfigInit =
      some ({ nodeCount := 35, complexity := .MEDIUM, status := .OPTIMAL },
            "Available headroom. Expanding neural architecture to 35 nodes.") ∧
    scaleStep 20 networkConfigInit [] "a" "00:00:00" =
      ({ nodeCount := 35, complexity := .MEDIUM, status := .OPTIMAL },
       [⟨"a", "00:00:00", .SYSTEM,
         "Available headroom. Expanding neural architecture to 35 nodes."⟩]) := by
  have h := (scaleUp_spec 20 networkConfigInit [] "a" "00:00:00" 35
    (by norm_num) (by decide) (by decide) (by decide)).2 (by decide)
  exact ⟨h.1, h.2⟩

/-- C8: the evaluation never reports a non-change: whenever it returns a
config, that config's `nodeCount` differs from the input's (so the result is
never equal to the input config), and whenever it returns `none` the scaling
step leaves config and log untouched. -/
theorem evaluate_no_spurious_change (cpu : ℚ) (cfg : NetworkConfig) :
    (∀ out, evaluate cpu cfg = some out →
      out.1.nodeCount ≠ cfg.nodeCount ∧ out.1 ≠ cfg) ∧
    (evaluate cpu cfg = none →
      ∀ logs id ts, scaleStep cpu cfg logs id ts = (cfg, logs)) := by
  constructor
  · intro out hout
    have hnode : out.1.nodeCount ≠ cfg.nodeCount := by
      unfold evaluate at hout
      simp only [] at hout
      split_ifs at hout <;>
        · obtain rfl := (Option.some.injEq _ _).mp hout
          dsimp only
          assumption
    exact ⟨hnode, fun hc => hnode (by rw [hc])⟩
  · intro hnone logs id ts
    unfold scaleStep
    rw [hnone]

/-- Witness for C8 at `cpu = 90`, `n = 50` (a change: `40 ≠ 50`) and at
`cpu = 60` (a no-op: state untouched). -/
theorem evaluate_no_spurious_change_witness :
    ({ nodeCount := 40, complexity := .MEDIUM, status := .STRAINED } : NetworkConfig).nodeCount ≠
        ({ nodeCount := 50, complexity := .MEDIUM, status := .OPTIMAL } : NetworkConfig).nodeCount ∧
      scaleStep 60 networkConfigInit [] "a" "00:00:00" = (networkConfigInit, []) := by
  refine ⟨((evaluate_no_spurious_change 90
      { nodeCount := 50, complexity := .MEDIUM, status := .OPTIMAL }).1
      ({ nodeCount := 40, complexity := .MEDIUM, status := .STRAINED },
        "Critical load detected. Reducing active nodes to 40.") (by decide)).1, ?_⟩
  exact (evaluate_no_spurious_change 60 networkConfigInit).2 (by decide) [] "a" "00:00:00"

/-- C10: at `nodeCount = MIN_NODES = 10` the scale-down rule can never fire:
for every `cpu > 85` the evaluation is a no-op with no config change and no
log entry; and for every `nodeCount ≥ 11` it does fire. -/
theorem scaleDown_min_nodes (cpu : ℚ) (cfg : NetworkConfig) (hcpu : 85 < cpu) :
    (cfg.nodeCount = MIN_NODES →
      evaluate cpu cfg = none ∧
        ∀ logs id ts, scaleStep cpu cfg logs id ts = (cfg, logs)) ∧
    (MIN_NODES + 1 ≤ cfg.nodeCount → (evaluate cpu cfg).isSome) := by
  constructor
  · intro h10
    have he : evaluate cpu cfg = none := by
      unfold evaluate
      rw [if_pos hcpu, if_neg (not_not_intro (by rw [h10]; rfl))]
    exact ⟨he, fun logs id ts => by unfold scaleStep; rw [he]⟩
  · intro h11
    have hne : max MIN_NODES (cfg.nodeCount - cfg.nodeCount / 5) ≠ cfg.nodeCount := by
      have : MIN_NODES = 10 := rfl
      omega
    unfold evaluate
    rw [if_pos hcpu, if_pos hne]
    rfl

/-- Witness for C10 at `cpu = 90`: `n = 10` is a no-op, `n = 11` fires. -/
theorem scaleDown_min_nodes_witness :
    evaluate 90 { nodeCount := 10, complexity := .LOW, status := .STRAINED } = none ∧
      (evaluate 90 { nodeCount := 11, complexity := .LOW, status := .STRAINED }).isSome := by
  refine ⟨((scaleDown_min_nodes 90
      { nodeCount := 10, complexity := .LOW, status := .STRAINED } (by norm_num)).1
      (by decide)).1, ?_⟩
  exact (scaleDown_min_nodes 90
    { nodeCount := 11, complexity := .LOW, status := .STRAINED } (by norm_num)).2 (by decide)

/-- The status values an engine operation can actually produce or preserve. -/
def reachableFields (cfg : NetworkConfig) : Prop :=
  (cfg.status = .OPTIMAL ∨ cfg.status = .STRAINED) ∧
    (cfg.complexity = .LOW ∨ cfg.complexity = .MEDIUM ∨ cfg.complexity = .HIGH)

instance (cfg : NetworkConfig) : Decidable (reachableFields cfg) := by
  unfold reachableFields; infer_instance

/-- Any config the evaluation returns has status `STRAINED` or `OPTIMAL` and
complexity in `{LOW, MEDIUM, HIGH}`. -/
theorem evaluate_reachableFields (cpu : ℚ) (cfg : NetworkConfig)
    (out : NetworkConfig × String) (hev : evaluate cpu cfg = some out) :
    reachableFields out.1 := by
  unfold evaluate at hev
  simp only [] at hev
  split_ifs at hev <;>
    · obtain rfl := (Option.some.injEq _ _).mp hev
      simp [reachableFields]

/-- One evaluation preserves `reachableFields`. -/
theorem applyScale_reachableFields (cfg : NetworkConfig) (cpu : ℚ)
    (h : reachableFields cfg) : reachableFields (applyScale cfg cpu) := by
  rcases hev : evaluate cpu cfg with _ | out
  · unfold applyScale
    rw [hev]
    exact h
  · unfold applyScale
    rw [hev]
    exact evaluate_reachableFields cpu cfg out hev

/-- C9: starting from the initial config (30, MEDIUM, OPTIMAL), every sequence
of auto-scaling evaluations keeps `status` in `{OPTIMAL, STRAINED}` and
`complexity` in `{LOW, MEDIUM, HIGH}`: `OVERLOAD`, `IDLE` and `CRITICAL` are
never produced even though the types admit them. -/
theorem foldl_applyScale_reachableFields (cpus : List ℚ) :
    reachableFields (cpus.foldl applyScale networkConfigInit) := by
  suffices h : ∀ cfg : NetworkConfig, reachableFields cfg →
      reachableFields (cpus.foldl applyScale cfg) from
    h networkConfigInit (by decide)
  induction cpus with
  | nil => exact fun cfg h => h
  | cons c cs ih => exact fun cfg h => ih _ (applyScale_reachableFields _ _ h)

/-- Folding the `slice(-(cap-1)) ++ [e]` update from the empty list keeps
exactly the last `min length cap` appended elements, in order. -/
theorem foldl_slice_eq_drop {α : Type} (cap : Nat) (hcap : 1 ≤ cap) (ms : List α) :
    ms.foldl (fun l e => l.drop (l.length - (cap - 1)) ++ [e]) [] =
      ms.drop (ms.length - cap) := by
  induction ms using List.reverseRecOn with
  | nil => simp
  | append_singleton ms e ih =>
    rw [List.foldl_append, List.foldl_cons, List.foldl_nil, ih]
    have hlen : (ms.drop (ms.length - cap)).length = ms.length - (ms.length - cap) :=
      List.length_drop _ _
    rw [List.drop_drop, hlen]
    have harith : (ms.length - cap) + ((ms.length - (ms.length - cap)) - (cap - 1)) =
        (ms ++ [e]).length - cap := by
      rw [List.length_append]
      simp only [List.length_cons, List.length_nil]
      omega
    rw [harith]
    rw [List.drop_append_of_le_length (by rw [List.length_append]; simp; omega)]

/-- A concrete run of 51 log appends (messages "0" … "50"). -/
def testLogs : List LogEntry :=
  (List.range 51).map fun i => ⟨"", "", LogType.INFO, toString i⟩

/-- C6: under every sequence of appends the Event Log holds at most 50 entries
and the History Buffer at most `HISTORY_LENGTH = 30` samples, each buffer being
exactly the suffix of the appended sequence that fits (oldest-first FIFO
eviction, insertion order preserved); after the 51 concrete appends of
`testLogs` the log length is exactly 50 and its first entry is the 2nd
appended one. -/
theorem log_history_fifo_capacity :
    (∀ ms : List LogEntry,
      ms.foldl addLogPure [] = ms.drop (ms.length - 50) ∧
        (ms.foldl addLogPure []).length ≤ 50) ∧
    (∀ hs : List HistorySample,
      hs.foldl pushHistory [] = hs.drop (hs.length - HISTORY_LENGTH) ∧
        (hs.foldl pushHistory []).length ≤ HISTORY_LENGTH) ∧
    (testLogs.foldl addLogPure []).length = 50 ∧
    (testLogs.foldl addLogPure []).head? = testLogs[1]? := by
  have hlog : ∀ ms : List LogEntry, ms.foldl addLogPure [] = ms.drop (ms.length - 50) := by
    intro ms
    have h := foldl_slice_eq_drop 50 (by norm_num) ms
    simpa [addLogPure] using h
  have hhist : ∀ hs : List HistorySample,
      hs.foldl pushHistory [] = hs.drop (hs.length - HISTORY_LENGTH) := by
    intro hs
    have h := foldl_slice_eq_drop HISTORY_LENGTH (by norm_num [HISTORY_LENGTH]) hs
    simpa [pushHistory] using h
  refine ⟨fun ms => ⟨hlog ms, ?_⟩, fun hs => ⟨hhist hs, ?_⟩, ?_, ?_⟩
  · rw [hlog ms, List.length_drop]
    omega
  · rw [hhist hs, List.length_drop]
    omega
  · rw [hlog testLogs]
    rfl
  · rw [hlog testLogs]
    rfl

/-- Outcome of the external `ai.models.generateContent` call
(src/services/geminiService.ts): either the call throws (`error`), or it
succeeds with `response.text` being absent (`ok none`) or a string
(`ok (some s)`). -/
def GenOutcome : Type := Except String (Option String)

/-- JavaScript `String.prototype.trim`: strip whitespace from both ends,
modelled structurally on the character list. -/
def jsTrim (s : String) : String :=
  ⟨((s.data.dropWhile Char.isWhitespace).reverse.dropWhile Char.isWhitespace).reverse⟩

/-- `analyzeSystem` (src/services/geminiService.ts lines 13-63) as a function
of the call outcome.  The try-body returns
`response.text?.trim() || "System nominal. Awaiting input."`: an absent text or
a text that trims to the empty string (the only falsy string) falls back to
the nominal default; the catch branch returns the telemetry-fallback string. -/
def analyzeSystem (metrics : SystemMetrics) (config : NetworkConfig)
    (previousLogs : List String) (call : GenOutcome) : String :=
  match call with
  | Except.error _ => "Telemetry link unstable. Running local heuristics."
  | Except.ok t =>
      match t with
      | none => "System nominal. Awaiting input."
      | some s => if jsTrim s = "" then "System nominal. Awaiting input." else jsTrim s

/-- One firing of the Gemini-intelligence interval callback when the
probabilistic gate passes (src/App.tsx lines 139-153): it awaits
`analyzeSystem` on the current metrics/config snapshot and the messages of the
last 3 logs (`logs.slice(-3)`), then appends the thought as one `AI` entry. -/
def geminiTick (call : GenOutcome) (metrics : SystemMetrics)
    (cfg : NetworkConfig) (logs : List LogEntry) (id ts : String) : List LogEntry :=
  let thought := analyzeSystem metrics cfg
    ((logs.drop (logs.length - 3)).map LogEntry.message) call
  addLogPure logs ⟨id, ts, .AI, thought⟩

/-- C7: `analyzeSystem` is total (never throws), and when the underlying call
throws it resolves to the literal telemetry fallback; the caller then appends
exactly one `AI`-typed log entry carrying that text. -/
theorem analyzeSystem_error_fallback (metrics : SystemMetrics) (cfg : NetworkConfig)
    (logs : List LogEntry) (id ts err : String)
    (call : GenOutcome) (hcall : call = Except.error err) :
    analyzeSystem metrics cfg ((logs.drop (logs.length - 3)).map LogEntry.message) call =
      "Telemetry link unstable. Running local heuristics." ∧
    geminiTick call metrics cfg logs id ts =
      addLogPure logs
        ⟨id, ts, .AI, "Telemetry link unstable. Running local heuristics."⟩ := by
  subst hcall
  exact ⟨rfl, rfl⟩

/-- Witness for C7: a concrete failed call appends the one `AI` fallback
entry to an empty log. -/
theorem analyzeSystem_error_fallback_witness :
    analyzeSystem metricsInit networkConfigInit
        (([] : List LogEntry).drop (([] : List LogEntry).length - 3) |>.map LogEntry.message)
        (Except.error "quota") =
      "Telemetry link unstable. Running local heuristics." ∧
    geminiTick (Except.error "quota") metricsInit networkConfigInit [] "a" "00:00:00" =
      [⟨"a", "00:00:00", .AI, "Telemetry link unstable. Running local heuristics."⟩] := by
  have h := analyzeSystem_error_fallback metricsInit networkConfigInit [] "a" "00:00:00"
    "quota" (Except.error "quota") rfl
  exact ⟨h.1, h.2⟩

/-- C4 counterexample: a successful call whose response is whitespace-only is
NOT mapped to the telemetry fallback: `analyzeSystem` returns the distinct
default "System nominal. Awaiting input." instead. -/
theorem analyzeSystem_empty_not_telemetry_fallback :
    analyzeSystem metricsInit networkConfigInit [] (Except.ok (some "   ")) =
      "System nominal. Awaiting input." ∧
    analyzeSystem metricsInit networkConfigInit [] (Except.ok (some "   ")) ≠
      "Telemetry link unstable. Running local heuristics." := by
  constructor
  · decide
  · decide

/-- C4 amended: when the call succeeds but the response text is absent, empty
or whitespace-only, `analyzeSystem` treats it as missing output and returns the
fixed default "System nominal. Awaiting input." (the telemetry fallback is
reserved for thrown failures). -/
theorem analyzeSystem_empty_default (metrics : SystemMetrics) (cfg : NetworkConfig)
    (prevLogs : List String) (t : Option String)
    (h : t = none ∨ ∃ s, t = some s ∧ jsTrim s = "") :
    analyzeSystem metrics cfg prevLogs (Except.ok t) =
      "System nominal. Awaiting input." := by
  rcases h with rfl | ⟨s, rfl, hs⟩
  · rfl
  · show (if jsTrim s = "" then "System nominal. Awaiting input." else jsTrim s) =
      "System nominal. Awaiting input."
    rw [if_pos hs]

/-- Witness for the amended C4 at a whitespace-only response. -/
theorem analyzeSystem_empty_default_witness :
    analyzeSystem metricsInit networkConfigInit [] (Except.ok (some " ")) =
      "System nominal. Awaiting input." :=
  analyzeSystem_empty_default metricsInit networkConfigInit [] (some " ")
    (Or.inr ⟨" ", rfl, by decide⟩)

/-- Clamping to `[10,100]` moves a value toward any point of `[10,100]`:
the clamped value is at least as close to `m` as the raw value. -/
theorem clamp_abs_le (m u : ℚ) (hp1 : 10 ≤ m) (hp2 : m ≤ 100) :
    |min 100 (max 10 u) - m| ≤ |u - m| := by
  rcases le_total u 10 with h | h
  · rw [max_eq_left h, min_eq_right (by norm_num : (10:ℚ) ≤ 100),
      abs_of_nonpos (by linarith), abs_of_nonpos (by linarith)]
    linarith
  · rcases le_total u 100 with h2 | h2
    · rw [max_eq_right h, min_eq_right h2]
    · rw [max_eq_right h, min_eq_left h2,
        abs_of_nonneg (by linarith), abs_of_nonneg (by linarith)]
      linarith

/-- C5: one simulator step keeps `cpuLoad` in `[5,100]` and `memoryUsage` in
`[10,100]`, and the memory change obeys the first-order IIR step bound
`|mem' - prev.mem| ≤ 0.1 * |cpu' - prev.mem| + 2.5`, for noise draws in their
documented ranges (`cpu` noise in `[-5,5]`, `mem` noise in `[-2.5,2.5]`) and
any previous state the simulator can be in (its memory output is always in
`[10,100]`, as is the initial state's). -/
theorem metricsStep_bounds (prev : SystemMetrics) (nodeCount : Nat)
    (artificialLoad noise memNoise latNoise : ℚ)
    (hl0 : 0 ≤ artificialLoad) (hl80 : artificialLoad ≤ 80)
    (hn1 : -5 ≤ noise) (hn2 : noise ≤ 5)
    (hm1 : -(5/2) ≤ memNoise) (hm2 : memNoise ≤ 5/2)
    (hp1 : 10 ≤ prev.memoryUsage) (hp2 : prev.memoryUsage ≤ 100) :
    5 ≤ (metricsStep prev nodeCount artificialLoad noise memNoise latNoise).cpuLoad ∧
    (metricsStep prev nodeCount artificialLoad noise memNoise latNoise).cpuLoad ≤ 100 ∧
    10 ≤ (metricsStep prev nodeCount artificialLoad noise memNoise latNoise).memoryUsage ∧
    (metricsStep prev nodeCount artificialLoad noise memNoise latNoise).memoryUsage ≤ 100 ∧
    |(metricsStep prev nodeCount artificialLoad noise memNoise latNoise).memoryUsage -
        prev.memoryUsage| ≤
      0.1 * |(metricsStep prev nodeCount artificialLoad noise memNoise latNoise).cpuLoad -
        prev.memoryUsage| + 5/2 := by
  unfold metricsStep
  simp only []
  set m := prev.memoryUsage with hm
  set c := min (100:ℚ) (max 5 (10 + (nodeCount:ℚ)/2 + artificialLoad + noise)) with hc
  set u := m + (c - m) * 0.1 + memNoise with hu
  set v := min (100:ℚ) (max 10 u) with hv
  have hc1 : (5:ℚ) ≤ c := le_min (by norm_num) (le_max_left _ _)
  have hc2 : c ≤ 100 := min_le_left _ _
  have hv1 : (10:ℚ) ≤ v := le_min (by norm_num) (le_max_left _ _)
  have hv2 : v ≤ 100 := min_le_left _ _
  refine ⟨hc1, hc2, hv1, hv2, ?_⟩
  have habs : |u - m| ≤ 0.1 * |c - m| + 5/2 := by
    have h1 : u - m = (c - m) * 0.1 + memNoise := by rw [hu]; ring
    rw [h1]
    calc |(c - m) * 0.1 + memNoise| ≤ |(c - m) * 0.1| + |memNoise| := abs_add _ _
      _ = |c - m| * 0.1 + |memNoise| := by rw [abs_mul]; norm_num
      _ ≤ |c - m| * 0.1 + 5/2 := by
          have hmn : |memNoise| ≤ 5/2 := abs_le.mpr ⟨by linarith, hm2⟩
          linarith
      _ = 0.1 * |c - m| + 5/2 := by ring
  exact le_trans (clamp_abs_le m u hp1 hp2) habs

/-- Witness for C5 at the initial metrics, 30 nodes, no artificial load and
zero noise draws. -/
theorem metricsStep_bounds_witness :
    5 ≤ (metricsStep metricsInit 30 0 0 0 0).cpuLoad ∧
    (metricsStep metricsInit 30 0 0 0 0).cpuLoad ≤ 100 ∧
    10 ≤ (metricsStep metricsInit 30 0 0 0 0).memoryUsage ∧
    (metricsStep metricsInit 30 0 0 0 0).memoryUsage ≤ 100 ∧
    |(metricsStep metricsInit 30 0 0 0 0).memoryUsage - metricsInit.memoryUsage| ≤
      0.1 * |(metricsStep metricsInit 30 0 0 0 0).cpuLoad - metricsInit.memoryUsage| + 5/2 :=
  metricsStep_bounds metricsInit 30 0 0 0 0 (by norm_num) (by norm_num) (by norm_num)
    (by norm_num) (by norm_num) (by norm_num) (by decide) (by decide)

end NeuroFlex
